import Mathlib

/-!
Verification of the Tubely video-hosting backend (learn-file-storage-s3-golang-starter).

This file shallowly embeds the Go source in Lean 4:

* `categorizeAspectRatio` embeds `categorizeAspectRatio` (src/video_utils.go):
  Go computes `ratio := float64(width) / float64(height)` and compares against
  `16.0/9.0 ± 0.1` and `9.0/16.0 ± 0.1`; the spec states the rule "as a real
  number", which we model with exact rational arithmetic over `ℚ`.
* `getVideoAspectRatio` embeds `getVideoAspectRatio` (src/video_utils.go):
  the external ffprobe run and the JSON parse are modelled by a `ProbeOutcome`
  oracle; a field absent from the JSON unmarshals to the Go zero value `0`,
  so "absent" coincides with width/height `= 0` in the model.
* `dbVideoToSignedVideo` embeds `dbVideoToSignedVideo`: Go's
  `strings.Split(url, ",")` is embedded as `splitComma` on `List Char`, and the
  presign request is reified as the `SignOutcome.presign bucket key` outcome so
  theorems can speak about which bucket and key are requested.
* `base64RawURLEncode` embeds Go's `base64.RawURLEncoding.EncodeToString`
  (unpadded URL-safe alphabet), used for the random key body; `mkFileKey` and
  `mkVideoURL` embed the two `fmt.Sprintf` calls composing the object key and
  the stored reference.
* `s3UploadWithRetry` embeds the retry loop of `handlerUploadVideo` (Step 8),
  producing the event trace (seeks, put attempts, sleeps) and the final value
  of the Go variable `uploadErr`; `retryPolicySpec` is a second definition
  that transcribes the spec's words for the retry policy, compared with the
  embedded loop in the theorem for claim C1.
* `handlerUploadVideo` and `handlerUploadThumbnail` embed the two HTTP
  handlers as straight-line functions over an oracle of collaborator
  outcomes, tracking the HTTP status, every file the request created on disk,
  and the files still on disk after all deferred removals have run.  File
  creation by the external ffmpeg process is part of the oracle
  (`ffmpegPartialOutputOnFailure`), since `processVideoForFastStart` gives its
  output path to ffmpeg and the Go code registers no removal for it unless
  the remux call returns successfully.
-/

namespace Tubely

/-! ## Definitions: aspect-ratio classification (src/video_utils.go) -/

/-- Go: `landscapeTarget := 16.0 / 9.0`. -/
def landscapeTarget : ℚ := 16 / 9

/-- Go: `portraitTarget := 9.0 / 16.0`. -/
def portraitTarget : ℚ := 9 / 16

/-- Go: `tolerance := 0.1`. -/
def tolerance : ℚ := 1 / 10

/-- Embedding of `categorizeAspectRatio(width, height int) string`.
`ratio := float64(width) / float64(height)` is modelled exactly over `ℚ`;
the two guards transcribe
`ratio >= landscapeTarget-tolerance && ratio <= landscapeTarget+tolerance`
and the analogous portrait guard. -/
def categorizeAspectRatio (width height : Int) : String :=
  let ratio : ℚ := (width : ℚ) / (height : ℚ)
  if landscapeTarget - tolerance ≤ ratio ∧ ratio ≤ landscapeTarget + tolerance then
    "landscape"
  else if portraitTarget - tolerance ≤ ratio ∧ ratio ≤ portraitTarget + tolerance then
    "portrait"
  else
    "other"

/-- The same guards with the portrait interval tested first; used to show the
classification is independent of the order of the two membership tests. -/
def categorizeAspectRatioPortraitFirst (width height : Int) : String :=
  let ratio : ℚ := (width : ℚ) / (height : ℚ)
  if portraitTarget - tolerance ≤ ratio ∧ ratio ≤ portraitTarget + tolerance then
    "portrait"
  else if landscapeTarget - tolerance ≤ ratio ∧ ratio ≤ landscapeTarget + tolerance then
    "landscape"
  else
    "other"

/-! ## Definitions: probe (src/video_utils.go, getVideoAspectRatio) -/

/-- One entry of the `streams` array of the ffprobe JSON output
(Go struct `FFProbeOutput`); Go `int` fields, absent keys unmarshal to `0`. -/
structure FFStream where
  width : Int
  height : Int
deriving DecidableEq

/-- Oracle for the ffprobe invocation: the external process may fail to run
(`runError`, Go `cmd.Run()` error), its output may fail to parse
(`parseError`, Go `json.Unmarshal` error), or it reports a stream list. -/
inductive ProbeOutcome where
  | runError
  | parseError
  | streams (xs : List FFStream)
deriving DecidableEq

/-- Embedding of `getVideoAspectRatio(filePath string) (string, error)`:
error when ffprobe fails to run or its output fails to parse; `"other"` when
no streams are reported or the first stream has zero width or height;
otherwise the classification of the first stream's dimensions. -/
def getVideoAspectRatio : ProbeOutcome → Except String String
  | .runError => .error "ffprobe failed"
  | .parseError => .error "failed to parse ffprobe output"
  | .streams [] => .ok "other"
  | .streams (s :: _) =>
      if s.width = 0 ∨ s.height = 0 then .ok "other"
      else .ok (categorizeAspectRatio s.width s.height)

/-- The neutral-outcome precondition of claim C8: the inspector reported no
streams, or the first reported stream has zero (or, in Go, absent) width or
height. -/
def probeNeutral (po : ProbeOutcome) : Prop :=
  po = .streams [] ∨ ∃ s rest, po = .streams (s :: rest) ∧ (s.width = 0 ∨ s.height = 0)

/-! ## Definitions: stored-reference resolution (dbVideoToSignedVideo) -/

/-- Embedding of Go `strings.Split(s, ",")` on the character list of `s`:
`splitComma "a,b"` gives `["a", "b"]`, `splitComma ""` gives `[""]`,
`splitComma "a,"` gives `["a", ""]`, exactly as in Go. -/
def splitComma : List Char → List (List Char)
  | [] => [[]]
  | c :: rest =>
      if c = ',' then [] :: splitComma rest
      else
        match splitComma rest with
        | [] => [[c]]
        | p :: ps => (c :: p) :: ps

/-- Result of `dbVideoToSignedVideo`, with the presign request reified:
`unchanged` for a nil or empty VideoURL, `invalidFormat` for the
`"invalid bucket/key format"` error, and `presign bucket key` when a
presigned URL is requested from the object store for that bucket and key. -/
inductive SignOutcome where
  | unchanged
  | invalidFormat (url : String)
  | presign (bucket key : String)
deriving DecidableEq

/-- Embedding of `dbVideoToSignedVideo(video database.Video)`: nil or empty
VideoURL is passed through unchanged; otherwise the URL is split on commas,
a split of length other than two is the invalid-format error, and a split
`[bucket, key]` leads to a presign request for exactly that pair. -/
def dbVideoToSignedVideo (videoURL : Option String) : SignOutcome :=
  match videoURL with
  | none => .unchanged
  | some url =>
      if url = "" then .unchanged
      else
        match splitComma url.data with
        | [b, k] => .presign (String.mk b) (String.mk k)
        | _ => .invalidFormat url

/-- The comma-separated components of a stored reference. -/
def commaComponents (url : String) : List (List Char) := splitComma url.data

/-- The spec's wording for claim C3: the reference consists of exactly two
non-empty comma-separated components. -/
def hasTwoNonEmptyComponents (url : String) : Bool :=
  match commaComponents url with
  | [b, k] => !b.isEmpty && !k.isEmpty
  | _ => false

/-! ## Definitions: random key body and key/reference composition -/

/-- The URL-safe base64 alphabet of Go's `base64.RawURLEncoding`. -/
def base64URLAlphabet : List Char :=
  "ABCDEFGHIJKLMNOPQRSTUVWXYZabcdefghijklmnopqrstuvwxyz0123456789-_".data

/-- Character of the URL-safe base64 alphabet at a 6-bit index. -/
def b64Char (n : Nat) : Char := base64URLAlphabet.getD (n % 64) 'A'

/-- Embedding of Go `base64.RawURLEncoding.EncodeToString` on a byte list:
three input bytes become four alphabet characters, with the standard
shortened groups for one or two trailing bytes and no padding. -/
def base64RawURLEncode : List Nat → List Char
  | [] => []
  | [b1] => [b64Char (b1 / 4), b64Char (b1 % 4 * 16)]
  | [b1, b2] => [b64Char (b1 / 4), b64Char (b1 % 4 * 16 + b2 / 16), b64Char (b2 % 16 * 4)]
  | b1 :: b2 :: b3 :: rest =>
      b64Char (b1 / 4) :: b64Char (b1 % 4 * 16 + b2 / 16) ::
        b64Char (b2 % 16 * 4 + b3 / 64) :: b64Char (b3 % 64) ::
        base64RawURLEncode rest

/-- Go: `fileKey := fmt.Sprintf("%s/%s.mp4", aspectRatio, randomString)`. -/
def mkFileKey (aspect randomString : String) : String :=
  aspect ++ "/" ++ randomString ++ ".mp4"

/-- Go: `videoURL := fmt.Sprintf("%s,%s", cfg.s3Bucket, fileKey)`. -/
def mkVideoURL (bucket fileKey : String) : String :=
  bucket ++ "," ++ fileKey

/-! ## Definitions: the S3 upload retry loop (handlerUploadVideo, Step 8) -/

/-- Events of the retry loop, in order: a `seek` of the processed file back to
its start before an attempt (with the seek error, if any), a `putAttempt`
against the object store (with its error, if any), and a `sleep` of the given
number of seconds. -/
inductive UploadEvent where
  | seek (attempt : Nat) (result : Option Nat)
  | putAttempt (attempt : Nat) (result : Option Nat)
  | sleep (seconds : Nat)
deriving DecidableEq

/-- Embedding of the body of the Go `for attempt := 1; attempt <= maxRetries`
loop.  `remaining` is the number of attempts the loop condition still admits,
so the call for attempt `a` receives `remaining = maxRetries - a + 1`, and
`remaining = 0` after a failed put is exactly Go's `attempt < maxRetries`
being false (no sleep after the final attempt).  Errors are drawn from the
oracles `seekFn` and `putFn`, indexed by the attempt number; the second
component is the value of the Go variable `uploadErr` when the loop exits. -/
def uploadLoopAux (seekFn putFn : Nat → Option Nat) :
    Nat → Nat → Option Nat → List UploadEvent × Option Nat
  | 0, _, uploadErr => ([], uploadErr)
  | remaining + 1, attempt, _ =>
    match seekFn attempt with
    | some e => ([.seek attempt (some e)], some e)
    | none =>
      match putFn attempt with
      | none => ([.seek attempt none, .putAttempt attempt none], none)
      | some e =>
        if remaining = 0 then
          ([.seek attempt none, .putAttempt attempt (some e)], some e)
        else
          let rest := uploadLoopAux seekFn putFn remaining (attempt + 1) (some e)
          (.seek attempt none :: .putAttempt attempt (some e) :: .sleep attempt :: rest.1,
            rest.2)

/-- The retry loop as in the source: `maxRetries := 3`, first attempt is 1,
`uploadErr` starts nil. -/
def s3UploadWithRetry (seekFn putFn : Nat → Option Nat) : List UploadEvent × Option Nat :=
  uploadLoopAux seekFn putFn 3 1 none

/-- Transcription of the spec's retry policy, written out as the full case
tree over the oracle outcomes: up to 3 attempts; before each attempt
(including the first) the stream is repositioned; a failed reposition aborts
the loop immediately with that error; a successful attempt ends the trace at
once; there is no delay before attempt 1, a 1-second sleep before attempt 2
and a 2-second sleep before attempt 3, and no sleep after the final failed
attempt; after the final attempt fails the surfaced error is the last
underlying put error. -/
def retryPolicySpec (seekFn putFn : Nat → Option Nat) : List UploadEvent × Option Nat :=
  match seekFn 1 with
  | some e => ([.seek 1 (some e)], some e)
  | none =>
  match putFn 1 with
  | none => ([.seek 1 none, .putAttempt 1 none], none)
  | some e1 =>
  match seekFn 2 with
  | some e => ([.seek 1 none, .putAttempt 1 (some e1), .sleep 1, .seek 2 (some e)], some e)
  | none =>
  match putFn 2 with
  | none => ([.seek 1 none, .putAttempt 1 (some e1), .sleep 1, .seek 2 none,
              .putAttempt 2 none], none)
  | some e2 =>
  match seekFn 3 with
  | some e => ([.seek 1 none, .putAttempt 1 (some e1), .sleep 1, .seek 2 none,
                .putAttempt 2 (some e2), .sleep 2, .seek 3 (some e)], some e)
  | none =>
  match putFn 3 with
  | none => ([.seek 1 none, .putAttempt 1 (some e1), .sleep 1, .seek 2 none,
              .putAttempt 2 (some e2), .sleep 2, .seek 3 none, .putAttempt 3 none], none)
  | some e3 => ([.seek 1 none, .putAttempt 1 (some e1), .sleep 1, .seek 2 none,
                 .putAttempt 2 (some e2), .sleep 2, .seek 3 none,
                 .putAttempt 3 (some e3)], some e3)

/-! ## Definitions: the video upload handler as a state machine -/

/-- The path of the temporary file created by
`os.CreateTemp("", "tubely-upload-*.mp4")`; a symbolic name, since only the
identity of the path matters to the file-lifecycle claims. -/
def tempFilePath : String := "tubely-upload.mp4"

/-- Go (processVideoForFastStart): `outputPath := inputPath + ".processing"`. -/
def fastStartOutputPath (inputPath : String) : String := inputPath ++ ".processing"

/-- Embedding of `processVideoForFastStart(inputPath string) (string, error)`:
on ffmpeg success the output path is returned, otherwise the wrapped error.
Whether the failed external process left a partial file at the output path is
not decided by this function; the handler oracle carries that bit. -/
def processVideoForFastStart (ffmpegOk : Bool) (inputPath : String) : Option String :=
  if ffmpegOk then some (fastStartOutputPath inputPath) else none

/-- Effect of `os.Remove(path)` on the set of files on disk. -/
def removeFile (path : String) (disk : List String) : List String :=
  disk.filter (fun p => p != path)

/-- Outcome of one run of the video upload handler: the HTTP status of the
response, every file the request created on disk (in creation order), and
the files still on disk after all deferred removals have run. -/
structure UploadOutcome where
  status : Nat
  filesCreated : List String
  filesOnDisk : List String
deriving DecidableEq

/-- Oracle for one video-upload request: the outcome of every fallible
collaborator call of `handlerUploadVideo`, in source order.
`ffmpegPartialOutputOnFailure` records whether the failed external remux
process left a partial file at its output path (the repository code cannot
observe or control this). -/
structure UploadOracle where
  parseVideoIDOk : Bool
  bearerTokenOk : Bool
  validJWT : Bool
  getVideoOk : Bool
  callerIsOwner : Bool
  parseFormOk : Bool
  formFileOk : Bool
  parseMediaTypeOk : Bool
  mediaTypeIsMp4 : Bool
  createTempOk : Bool
  copyToTempOk : Bool
  ffmpegOk : Bool
  ffmpegPartialOutputOnFailure : Bool
  openProcessedOk : Bool
  randReadOk : Bool
  probe : ProbeOutcome
  seekFn : Nat → Option Nat
  putFn : Nat → Option Nat
  updateVideoOk : Bool
  presignOk : Bool

/-- Embedding of `handlerUploadVideo`, following the source order of its
guards and early returns.  Statuses as in the source: 400 Bad Request,
401 Unauthorized, 404 Not Found, 500 Internal Server Error, 200 OK.
Deferred removals registered up to each return point are applied to compute
`filesOnDisk`: the temp-file removal is registered right after the temp file
is created, the processed-file removal right after the remux call returns
successfully — so a partial output left by a failed remux has no registered
removal. -/
def handlerUploadVideo (o : UploadOracle) : UploadOutcome :=
  if !o.parseVideoIDOk then ⟨400, [], []⟩
  else if !o.bearerTokenOk then ⟨401, [], []⟩
  else if !o.validJWT then ⟨401, [], []⟩
  else if !o.getVideoOk then ⟨404, [], []⟩
  else if !o.callerIsOwner then ⟨401, [], []⟩
  else if !o.parseFormOk then ⟨400, [], []⟩
  else if !o.formFileOk then ⟨400, [], []⟩
  else if !o.parseMediaTypeOk then ⟨400, [], []⟩
  else if !o.mediaTypeIsMp4 then ⟨400, [], []⟩
  else if !o.createTempOk then ⟨500, [], []⟩
  else if !o.copyToTempOk then ⟨500, [tempFilePath], removeFile tempFilePath [tempFilePath]⟩
  else
    match processVideoForFastStart o.ffmpegOk tempFilePath with
    | none =>
        if o.ffmpegPartialOutputOnFailure then
          ⟨500, [tempFilePath, fastStartOutputPath tempFilePath],
            removeFile tempFilePath [tempFilePath, fastStartOutputPath tempFilePath]⟩
        else
          ⟨500, [tempFilePath], removeFile tempFilePath [tempFilePath]⟩
    | some processedPath =>
        if !o.openProcessedOk then
          ⟨500, [tempFilePath, processedPath],
            removeFile tempFilePath (removeFile processedPath [tempFilePath, processedPath])⟩
        else if !o.randReadOk then
          ⟨500, [tempFilePath, processedPath],
            removeFile tempFilePath (removeFile processedPath [tempFilePath, processedPath])⟩
        else
          match getVideoAspectRatio o.probe with
          | .error _ =>
              ⟨500, [tempFilePath, processedPath],
                removeFile tempFilePath (removeFile processedPath [tempFilePath, processedPath])⟩
          | .ok _ =>
              match (s3UploadWithRetry o.seekFn o.putFn).2 with
              | some _ =>
                  ⟨500, [tempFilePath, processedPath],
                    removeFile tempFilePath
                      (removeFile processedPath [tempFilePath, processedPath])⟩
              | none =>
                  if !o.updateVideoOk then
                    ⟨500, [tempFilePath, processedPath],
                      removeFile tempFilePath
                        (removeFile processedPath [tempFilePath, processedPath])⟩
                  else if !o.presignOk then
                    ⟨500, [tempFilePath, processedPath],
                      removeFile tempFilePath
                        (removeFile processedPath [tempFilePath, processedPath])⟩
                  else
                    ⟨200, [tempFilePath, processedPath],
                      removeFile tempFilePath
                        (removeFile processedPath [tempFilePath, processedPath])⟩

/-! ## Definitions: the thumbnail upload handler -/

/-- Oracle for one thumbnail-upload request: the outcome of every fallible
collaborator call of `handlerUploadThumbnail`, in source order. -/
structure ThumbnailOracle where
  parseVideoIDOk : Bool
  bearerTokenOk : Bool
  validJWT : Bool
  parseFormOk : Bool
  formFileOk : Bool
  parseMediaTypeOk : Bool
  allowedImageType : Bool
  randReadOk : Bool
  createFileOk : Bool
  copyOk : Bool
  getVideoOk : Bool
  callerIsOwner : Bool
  updateVideoOk : Bool
deriving DecidableEq

/-- Embedding of `handlerUploadThumbnail` (src/handler_upload_thumbnail.go),
returning the HTTP status of the response, with guards in source order.
Note the source responds with `http.StatusUnauthorized` (401) on the
ownership check, and that the ownership check runs only after the file has
been staged to disk. -/
def handlerUploadThumbnail (o : ThumbnailOracle) : Nat :=
  if !o.parseVideoIDOk then 400
  else if !o.bearerTokenOk then 401
  else if !o.validJWT then 401
  else if !o.parseFormOk then 400
  else if !o.formFileOk then 400
  else if !o.parseMediaTypeOk then 400
  else if !o.allowedImageType then 400
  else if !o.randReadOk then 500
  else if !o.createFileOk then 500
  else if !o.copyOk then 500
  else if !o.getVideoOk then 404
  else if !o.callerIsOwner then 401
  else if !o.updateVideoOk then 500
  else 200

/-! ## Helper lemmas -/

lemma band_iff_abs (r t tol : ℚ) : (t - tol ≤ r ∧ r ≤ t + tol) ↔ |r - t| ≤ tol := by
  rw [abs_le]
  constructor <;> intro h <;> constructor <;> linarith [h.1, h.2]

lemma b64Char_ne_comma (n : Nat) : b64Char n ≠ ',' := by
  have h : ∀ k < 64, base64URLAlphabet.getD k 'A' ≠ ',' := by decide
  exact h (n % 64) (Nat.mod_lt _ (by norm_num))

lemma comma_ne_b64Char (n : Nat) : ¬ (',' = b64Char n) := fun h => b64Char_ne_comma n h.symm

lemma comma_not_mem_b64 : ∀ bs : List Nat, ',' ∉ base64RawURLEncode bs
  | [] => by simp [base64RawURLEncode]
  | [b1] => by simp [base64RawURLEncode, comma_ne_b64Char]
  | [b1, b2] => by simp [base64RawURLEncode, comma_ne_b64Char]
  | b1 :: b2 :: b3 :: rest => by
      have ih := comma_not_mem_b64 rest
      simp [base64RawURLEncode, comma_ne_b64Char, ih]

lemma splitComma_eq_single (s : List Char) (h : ',' ∉ s) : splitComma s = [s] := by
  induction s with
  | nil => rfl
  | cons c rest ih =>
    have hc : ¬ (c = ',') := by rintro rfl; exact h (List.mem_cons_self _ _)
    have hr : ',' ∉ rest := fun hm => h (List.mem_cons_of_mem _ hm)
    simp only [splitComma, if_neg hc, ih hr]

lemma splitComma_two (s t : List Char) (hs : ',' ∉ s) (ht : ',' ∉ t) :
    splitComma (s ++ ',' :: t) = [s, t] := by
  induction s with
  | nil => simp [splitComma, splitComma_eq_single t ht]
  | cons c rest ih =>
    have hc : ¬ (c = ',') := by rintro rfl; exact hs (List.mem_cons_self _ _)
    have hr : ',' ∉ rest := fun hm => hs (List.mem_cons_of_mem _ hm)
    simp only [List.cons_append, splitComma, if_neg hc, List.append_eq, ih hr]

lemma categorizeAspectRatio_eq_or (w h : Int) :
    categorizeAspectRatio w h = "landscape" ∨ categorizeAspectRatio w h = "portrait" ∨
      categorizeAspectRatio w h = "other" := by
  simp only [categorizeAspectRatio]
  split_ifs <;> simp

lemma aspect_no_comma (po : ProbeOutcome) (a : String)
    (h : getVideoAspectRatio po = .ok a) : ',' ∉ a.data := by
  cases po with
  | runError => simp [getVideoAspectRatio] at h
  | parseError => simp [getVideoAspectRatio] at h
  | streams xs =>
    cases xs with
    | nil =>
      simp only [getVideoAspectRatio, Except.ok.injEq] at h
      subst h; decide
    | cons s rest =>
      simp only [getVideoAspectRatio] at h
      split_ifs at h
      · rw [Except.ok.injEq] at h
        subst h; decide
      · rw [Except.ok.injEq] at h
        subst h
        rcases categorizeAspectRatio_eq_or s.width s.height with hc | hc | hc <;>
          rw [hc] <;> decide

lemma mk_data (s : String) : String.mk s.data = s := rfl

lemma mkFileKey_no_comma (aspect randomString : String)
    (ha : ',' ∉ aspect.data) (hr : ',' ∉ randomString.data) :
    ',' ∉ (mkFileKey aspect randomString).data := by
  simp only [mkFileKey, String.data_append, List.mem_append, not_or]
  exact ⟨⟨⟨ha, by decide⟩, hr⟩, by decide⟩

/-! ## Claim theorems -/

/-- Claim C1: the upload retry loop makes up to 3 attempts total; before each
attempt (including the first) the stream is repositioned to its start; a
failed repositioning aborts the loop immediately; an attempt returning no
error terminates the loop immediately; there is no delay before attempt 1, a
1-second sleep before attempt 2, a 2-second sleep before attempt 3, no sleep
after the final failed attempt; and after the final attempt fails, the error
surfaced is the last underlying error.  Stated as: for every outcome of the
seek and put oracles, the embedded loop produces exactly the trace and final
error prescribed by the spec's case tree `retryPolicySpec`. -/
theorem claim_C1 (seekFn putFn : Nat → Option Nat) :
    s3UploadWithRetry seekFn putFn = retryPolicySpec seekFn putFn := by
  rw [s3UploadWithRetry, retryPolicySpec]
  rcases hs1 : seekFn 1 with _ | e1s <;>
    simp only [uploadLoopAux, hs1] <;> try rfl
  rcases hp1 : putFn 1 with _ | e1 <;> simp only [hp1] <;> try rfl
  rcases hs2 : seekFn 2 with _ | e2s <;>
    simp only [uploadLoopAux, hs2] <;> try rfl
  rcases hp2 : putFn 2 with _ | e2 <;> simp only [hp2] <;> try rfl
  rcases hs3 : seekFn 3 with _ | e3s <;>
    simp only [uploadLoopAux, hs3] <;> try rfl
  rcases hp3 : putFn 3 with _ | e3 <;> simp only [hp3] <;> try rfl

/-- Claim C2: for every positive width and height the classifier equals the
spec's rule — landscape when the ratio is within 0.1 of 16/9 (inclusive),
else portrait when within 0.1 of 9/16 (inclusive), else other — and ratio
exactly 16/9 yields landscape. -/
theorem claim_C2 (w h : Int) (_hw : 0 < w) (_hh : 0 < h) :
    (categorizeAspectRatio w h =
      if |(w : ℚ) / (h : ℚ) - 16 / 9| ≤ 1 / 10 then "landscape"
      else if |(w : ℚ) / (h : ℚ) - 9 / 16| ≤ 1 / 10 then "portrait"
      else "other") ∧
    categorizeAspectRatio 16 9 = "landscape" := by
  constructor
  · simp only [categorizeAspectRatio, landscapeTarget, portraitTarget, tolerance,
      band_iff_abs]
  · rw [categorizeAspectRatio]
    norm_num [landscapeTarget, portraitTarget, tolerance]

/-- Witness for claim C2 at width 16, height 9. -/
theorem claim_C2_witness :
    (0 : Int) < 16 ∧ (0 : Int) < 9 ∧ categorizeAspectRatio 16 9 = "landscape" :=
  ⟨by decide, by decide, (claim_C2 16 9 (by decide) (by decide)).2⟩

/-- Counterexample to claim C6: at width 163, height 100 the ratio 1.63 is
within 10% of 16/9 (relative tolerance 16/90 ≈ 0.178), yet the code
classifies it as other, not landscape — the source tolerance is the absolute
constant 0.1, not 10% of the target. -/
theorem claim_C6_counterexample :
    (0 : Int) < 163 ∧ (0 : Int) < 100 ∧
    |((163 : Int) : ℚ) / ((100 : Int) : ℚ) - 16 / 9| ≤ 1 / 10 * (16 / 9) ∧
    categorizeAspectRatio 163 100 ≠ "landscape" ∧
    categorizeAspectRatio 163 100 = "other" := by
  have hother : categorizeAspectRatio 163 100 = "other" := by
    rw [categorizeAspectRatio]
    norm_num [landscapeTarget, portraitTarget, tolerance]
  refine ⟨by decide, by decide, ?_, ?_, hother⟩
  · rw [abs_le]; constructor <;> norm_num
  · rw [hother]; decide

/-- Claim C6 as amended: the tolerance is the absolute constant 0.1 (as in
claim C2), not 10% of the target ratio: within 0.1 of 16/9 the classifier
returns landscape, within 0.1 of 9/16 it returns portrait, and outside both
bands it returns other. -/
theorem claim_C6_amended (w h : Int) (_hw : 0 < w) (_hh : 0 < h) :
    (|(w : ℚ) / (h : ℚ) - 16 / 9| ≤ 1 / 10 → categorizeAspectRatio w h = "landscape") ∧
    (|(w : ℚ) / (h : ℚ) - 9 / 16| ≤ 1 / 10 → categorizeAspectRatio w h = "portrait") ∧
    (¬ |(w : ℚ) / (h : ℚ) - 16 / 9| ≤ 1 / 10 → ¬ |(w : ℚ) / (h : ℚ) - 9 / 16| ≤ 1 / 10 →
      categorizeAspectRatio w h = "other") := by
  simp only [categorizeAspectRatio, landscapeTarget, portraitTarget, tolerance, band_iff_abs]
  split_ifs with h1 h2
  · refine ⟨fun _ => rfl, fun hp => ?_, fun hno => absurd h1 hno⟩
    rw [abs_le] at h1 hp
    exfalso; linarith [h1.1, hp.2]
  · exact ⟨fun hl => absurd hl h1, fun _ => rfl, fun _ hno => absurd h2 hno⟩
  · exact ⟨fun hl => absurd hl h1, fun hp => absurd hp h2, fun _ _ => rfl⟩

/-- Witness for the amended claim C6 at width 16, height 9. -/
theorem claim_C6_amended_witness :
    (0 : Int) < 16 ∧ (0 : Int) < 9 ∧
    (|((16 : Int) : ℚ) / ((9 : Int) : ℚ) - 16 / 9| ≤ 1 / 10 →
      categorizeAspectRatio 16 9 = "landscape") :=
  ⟨by decide, by decide, ((claim_C6_amended 16 9 (by decide) (by decide)).1)⟩

/-- Counterexample to claim C3: the stored reference "bucket-x," splits into
two components of which the second is empty, so the spec's condition (exactly
two non-empty components) fails, yet the code does not fail with the
invalid-format error — it requests a presigned URL for bucket "bucket-x" and
the empty key.  The source only checks that the split has length 2. -/
theorem claim_C3_counterexample :
    ¬ (dbVideoToSignedVideo (some "bucket-x,") = .invalidFormat "bucket-x," ↔
        hasTwoNonEmptyComponents "bucket-x," = false) ∧
    hasTwoNonEmptyComponents "bucket-x," = false ∧
    dbVideoToSignedVideo (some "bucket-x,") = .presign "bucket-x" "" := by
  refine ⟨?_, by decide, by decide⟩
  intro hiff
  have := hiff.mpr (by decide)
  exact absurd this (by decide)

/-- Claim C3 as amended: for every non-empty reference, resolution fails with
the invalid-format error if and only if splitting on commas does not yield
exactly two components (components may be empty); and whenever the split is
exactly [bucket, key], a presigned URL is requested for precisely that bucket
and key. -/
theorem claim_C3_amended (url : String) (hne : url ≠ "") :
    (dbVideoToSignedVideo (some url) = .invalidFormat url ↔
      (commaComponents url).length ≠ 2) ∧
    (∀ b k, commaComponents url = [b, k] →
      dbVideoToSignedVideo (some url) = .presign (String.mk b) (String.mk k)) := by
  have hbase : dbVideoToSignedVideo (some url) =
      match splitComma url.data with
      | [b, k] => .presign (String.mk b) (String.mk k)
      | _ => .invalidFormat url := by
    simp only [dbVideoToSignedVideo, if_neg hne]
  rw [commaComponents] at *
  constructor
  · rw [hbase]
    rcases hsp : splitComma url.data with _ | ⟨a, _ | ⟨b, _ | ⟨c, t⟩⟩⟩ <;> simp [hsp]
  · intro b k hbk
    rw [hbase, hbk]

/-- Witness for the amended claim C3: the spec's round-trip example
"bucket-x,key-y" resolves to a presign request for bucket-x / key-y. -/
theorem claim_C3_amended_witness :
    ("bucket-x,key-y" : String) ≠ "" ∧
    dbVideoToSignedVideo (some "bucket-x,key-y") = .presign "bucket-x" "key-y" := by
  refine ⟨by decide, ?_⟩
  have h := (claim_C3_amended "bucket-x,key-y" (by decide)).2
    "bucket-x".data "key-y".data (by decide)
  simpa using h

/-- Claim C8: whenever the inspector reports no streams, or the first
reported stream has zero (absent) width or height, the prober returns the
classification other and does not fail. -/
theorem claim_C8 (po : ProbeOutcome) (h : probeNeutral po) :
    getVideoAspectRatio po = .ok "other" := by
  rcases h with h | ⟨s, rest, h, hz⟩
  · subst h; rfl
  · subst h
    simp only [getVideoAspectRatio]
    rw [if_pos hz]

/-- Witness for claim C8 at an empty stream report. -/
theorem claim_C8_witness :
    probeNeutral (.streams []) ∧ getVideoAspectRatio (.streams []) = .ok "other" :=
  ⟨Or.inl rfl, claim_C8 _ (Or.inl rfl)⟩

/-- Claim C9: when the configured bucket name contains no comma, every
reference written by a successful video ingest — bucket, comma, then the key
composed as classification/randomKey.mp4 with a URL-safe base64 random key —
contains exactly one comma, and resolving it requests a presigned URL for
exactly the bucket and key that were uploaded. -/
theorem claim_C9 (bucket : String) (bytes : List Nat) (po : ProbeOutcome) (aspect : String)
    (hb : ',' ∉ bucket.data) (ha : getVideoAspectRatio po = .ok aspect) :
    ((mkVideoURL bucket (mkFileKey aspect (String.mk (base64RawURLEncode bytes)))).data.count ','
        = 1) ∧
    dbVideoToSignedVideo
        (some (mkVideoURL bucket (mkFileKey aspect (String.mk (base64RawURLEncode bytes))))) =
      .presign bucket (mkFileKey aspect (String.mk (base64RawURLEncode bytes))) := by
  have hkey : ',' ∉ (mkFileKey aspect (String.mk (base64RawURLEncode bytes))).data :=
    mkFileKey_no_comma _ _ (aspect_no_comma po aspect ha) (comma_not_mem_b64 bytes)
  set key := mkFileKey aspect (String.mk (base64RawURLEncode bytes)) with hkdef
  have hurl : (mkVideoURL bucket key).data = bucket.data ++ ',' :: key.data := by
    simp [mkVideoURL, String.data_append]
  constructor
  · rw [hurl, List.count_append]
    rw [List.count_eq_zero.mpr hb]
    simp [List.count_cons, List.count_eq_zero.mpr hkey]
  · have hne : mkVideoURL bucket key ≠ "" := by
      intro hcontr
      rw [hcontr] at hurl
      exact absurd hurl.symm (by simp)
    simp only [dbVideoToSignedVideo, if_neg hne, hurl, splitComma_two _ _ hb hkey, mk_data]

/-- Witness for claim C9 with bucket "bucket-x", one random byte, and an
empty stream report (classification "other"). -/
theorem claim_C9_witness :
    (',' ∉ ("bucket-x" : String).data) ∧
    ((mkVideoURL "bucket-x" (mkFileKey "other" (String.mk (base64RawURLEncode [0])))).data.count
        ',' = 1) ∧
    dbVideoToSignedVideo
        (some (mkVideoURL "bucket-x" (mkFileKey "other" (String.mk (base64RawURLEncode [0]))))) =
      .presign "bucket-x" (mkFileKey "other" (String.mk (base64RawURLEncode [0]))) :=
  ⟨by decide,
    (claim_C9 "bucket-x" [0] (.streams []) "other" (by decide) rfl).1,
    (claim_C9 "bucket-x" [0] (.streams []) "other" (by decide) rfl).2⟩

/-- Claim C10: the landscape and portrait tolerance intervals are disjoint,
so for every positive width and height at most one of the two membership
conditions holds, the classification is independent of the order of the two
checks, and every input is assigned exactly one of the three classes. -/
theorem claim_C10 (w h : Int) (_hw : 0 < w) (_hh : 0 < h) :
    (∀ r : ℚ, ¬((landscapeTarget - tolerance ≤ r ∧ r ≤ landscapeTarget + tolerance) ∧
               (portraitTarget - tolerance ≤ r ∧ r ≤ portraitTarget + tolerance))) ∧
    categorizeAspectRatio w h = categorizeAspectRatioPortraitFirst w h ∧
    (categorizeAspectRatio w h = "landscape" ∨ categorizeAspectRatio w h = "portrait" ∨
      categorizeAspectRatio w h = "other") := by
  refine ⟨?_, ?_, categorizeAspectRatio_eq_or w h⟩
  · rintro r ⟨⟨hl1, _⟩, ⟨_, hp2⟩⟩
    rw [landscapeTarget, tolerance] at hl1
    rw [portraitTarget, tolerance] at hp2
    linarith
  · simp only [categorizeAspectRatio, categorizeAspectRatioPortraitFirst]
    split_ifs with h1 h2 <;> try rfl
    exfalso
    simp only [landscapeTarget, portraitTarget, tolerance] at h1 h2
    linarith [h1.1, h2.2]

/-- Witness for claim C10 at width 1, height 1 (class other). -/
theorem claim_C10_witness :
    (0 : Int) < 1 ∧ (0 : Int) < 1 ∧
    ((∀ r : ℚ, ¬((landscapeTarget - tolerance ≤ r ∧ r ≤ landscapeTarget + tolerance) ∧
               (portraitTarget - tolerance ≤ r ∧ r ≤ portraitTarget + tolerance))) ∧
    categorizeAspectRatio 1 1 = categorizeAspectRatioPortraitFirst 1 1 ∧
    (categorizeAspectRatio 1 1 = "landscape" ∨ categorizeAspectRatio 1 1 = "portrait" ∨
      categorizeAspectRatio 1 1 = "other")) :=
  ⟨by decide, by decide, claim_C10 1 1 (by decide) (by decide)⟩

/-- Characterization of the files left on disk by a video-upload request:
nothing remains, except that when the remux step failed and the external
process had left a partial output file, that partial file remains. -/
lemma handlerUploadVideo_filesOnDisk (o : UploadOracle) :
    (handlerUploadVideo o).filesOnDisk = [] ∨
    ((handlerUploadVideo o).filesOnDisk = [fastStartOutputPath tempFilePath] ∧
      o.ffmpegOk = false ∧ o.ffmpegPartialOutputOnFailure = true) := by
  obtain ⟨p1, p2, p3, p4, p5, p6, p7, p8, p9, p10, p11, fok, fpart, p14, p15, pr, sk, pt,
    p19, p20⟩ := o
  cases p1
  · exact Or.inl rfl
  cases p2
  · exact Or.inl rfl
  cases p3
  · exact Or.inl rfl
  cases p4
  · exact Or.inl rfl
  cases p5
  · exact Or.inl rfl
  cases p6
  · exact Or.inl rfl
  cases p7
  · exact Or.inl rfl
  cases p8
  · exact Or.inl rfl
  cases p9
  · exact Or.inl rfl
  cases p10
  · exact Or.inl rfl
  cases p11
  · exact Or.inl rfl
  cases fok
  · cases fpart
    · exact Or.inl rfl
    · exact Or.inr ⟨rfl, rfl, rfl⟩
  cases p14
  · exact Or.inl rfl
  cases p15
  · exact Or.inl rfl
  rcases hpr : getVideoAspectRatio pr with e | a
  · refine Or.inl ?_
    simp only [handlerUploadVideo, hpr]
    rfl
  rcases hu : (s3UploadWithRetry sk pt).2 with _ | e
  · refine Or.inl ?_
    simp only [handlerUploadVideo, hpr, hu]
    cases p19
    · rfl
    cases p20
    · rfl
    rfl
  · refine Or.inl ?_
    simp only [handlerUploadVideo, hpr, hu]
    rfl

/-- Counterexample to claim C4: in the run where every step up to the remux
succeeds, the remux fails, and the failed external process left a partial
output file, that file is still on disk when the request completes — the
removal of the rewritten path is only registered after a successful remux. -/
theorem claim_C4_counterexample :
    (handlerUploadVideo ⟨true, true, true, true, true, true, true, true, true, true, true,
        false, true, true, true, .streams [], fun _ => none, fun _ => none, true,
        true⟩).filesOnDisk = [fastStartOutputPath tempFilePath] ∧
    (handlerUploadVideo ⟨true, true, true, true, true, true, true, true, true, true, true,
        false, true, true, true, .streams [], fun _ => none, fun _ => none, true,
        true⟩).filesOnDisk ≠ [] := by
  have h : (handlerUploadVideo ⟨true, true, true, true, true, true, true, true, true, true,
      true, false, true, true, true, .streams [], fun _ => none, fun _ => none, true,
      true⟩).filesOnDisk = [fastStartOutputPath tempFilePath] := rfl
  refine ⟨h, ?_⟩
  rw [h]
  simp

/-- Claim C4 as amended: the staged temporary file is removed on every exit
path, and on every exit path on which the failed remux did not leave a
partial output file (in particular whenever the remux step succeeded),
no file created for the request remains on disk. -/
theorem claim_C4_amended (o : UploadOracle) :
    tempFilePath ∉ (handlerUploadVideo o).filesOnDisk ∧
    ((o.ffmpegOk = false → o.ffmpegPartialOutputOnFailure = false) →
      (handlerUploadVideo o).filesOnDisk = []) := by
  rcases handlerUploadVideo_filesOnDisk o with h | ⟨h, hff, hpp⟩
  · constructor
    · rw [h]; exact List.not_mem_nil _
    · intro _; exact h
  · constructor
    · rw [h]
      intro hm
      have := List.mem_singleton.mp hm
      exact absurd this (by decide)
    · intro himp
      exact absurd ((himp hff).symm.trans hpp) (by decide)

/-- Witness for the amended claim C4: a run whose remux succeeds ends with
no file of the request on disk. -/
theorem claim_C4_amended_witness :
    tempFilePath ∉ (handlerUploadVideo ⟨true, true, true, true, true, true, true, true, true,
        true, true, true, false, true, true, .streams [], fun _ => none, fun _ => none, true,
        true⟩).filesOnDisk ∧
    (handlerUploadVideo ⟨true, true, true, true, true, true, true, true, true,
        true, true, true, false, true, true, .streams [], fun _ => none, fun _ => none, true,
        true⟩).filesOnDisk = [] :=
  ⟨(claim_C4_amended _).1, (claim_C4_amended _).2 (fun hcontr => absurd hcontr (by decide))⟩

/-- Claim C5: if identifier parsing, bearer-token authentication, JWT
validation, metadata load, or the ownership check fails, the video-upload
request creates no file, leaves no file on disk, and responds with a
pre-file-I/O status (400, 401 or 404); in particular an authenticated
non-owner is refused with 401 before any temporary file is created. -/
theorem claim_C5 (o : UploadOracle)
    (h : o.parseVideoIDOk = false ∨ o.bearerTokenOk = false ∨ o.validJWT = false ∨
         o.getVideoOk = false ∨ o.callerIsOwner = false) :
    (handlerUploadVideo o).filesCreated = [] ∧
    (handlerUploadVideo o).filesOnDisk = [] ∧
    ((handlerUploadVideo o).status = 400 ∨ (handlerUploadVideo o).status = 401 ∨
      (handlerUploadVideo o).status = 404) ∧
    (o.parseVideoIDOk = true → o.bearerTokenOk = true → o.validJWT = true →
      o.getVideoOk = true → o.callerIsOwner = false →
      (handlerUploadVideo o).status = 401) := by
  cases hp : o.parseVideoIDOk <;> cases hb : o.bearerTokenOk <;> cases hj : o.validJWT <;>
    cases hg : o.getVideoOk <;> cases how : o.callerIsOwner <;>
    simp_all [handlerUploadVideo]

/-- Witness for claim C5: the not-owner run creates no file and responds
401. -/
theorem claim_C5_witness :
    (handlerUploadVideo ⟨true, true, true, true, false, true, true, true, true,
        true, true, true, false, true, true, .streams [], fun _ => none, fun _ => none, true,
        true⟩).filesCreated = [] ∧
    (handlerUploadVideo ⟨true, true, true, true, false, true, true, true, true,
        true, true, true, false, true, true, .streams [], fun _ => none, fun _ => none, true,
        true⟩).status = 401 := by
  have h := claim_C5 ⟨true, true, true, true, false, true, true, true, true,
    true, true, true, false, true, true, .streams [], fun _ => none, fun _ => none, true,
    true⟩ (Or.inr (Or.inr (Or.inr (Or.inr rfl))))
  exact ⟨h.1, h.2.2.2 rfl rfl rfl rfl rfl⟩

/-- Counterexample to claim C7: with a valid token and a caller who is not
the video's owner, the thumbnail handler responds 401 (Unauthorized), not
403 (Forbidden) — the source uses http.StatusUnauthorized for the ownership
failure. -/
theorem claim_C7_counterexample :
    handlerUploadThumbnail ⟨true, true, true, true, true, true, true, true, true, true, true,
      false, true⟩ ≠ 403 ∧
    handlerUploadThumbnail ⟨true, true, true, true, true, true, true, true, true, true, true,
      false, true⟩ = 401 := by decide

/-- Claim C7 as amended: in thumbnail ingest, a valid token with a
non-owner caller fails with 401 Unauthorized — the same status class the
handler uses for a missing or invalid token, not a distinct Forbidden. -/
theorem claim_C7_amended (o : ThumbnailOracle)
    (hp1 : o.parseVideoIDOk = true) (htok : o.bearerTokenOk = true)
    (hjwt : o.validJWT = true) (hp2 : o.parseFormOk = true) (hp3 : o.formFileOk = true)
    (hp4 : o.parseMediaTypeOk = true) (hp5 : o.allowedImageType = true)
    (hp6 : o.randReadOk = true) (hp7 : o.createFileOk = true) (hp8 : o.copyOk = true)
    (hp9 : o.getVideoOk = true) (hown : o.callerIsOwner = false) :
    handlerUploadThumbnail o = 401 := by
  simp [handlerUploadThumbnail, hp1, htok, hjwt, hp2, hp3, hp4, hp5, hp6, hp7, hp8, hp9, hown]

/-- Witness for the amended claim C7. -/
theorem claim_C7_amended_witness :
    handlerUploadThumbnail ⟨true, true, true, true, true, true, true, true, true, true, true,
      false, true⟩ = 401 :=
  claim_C7_amended ⟨true, true, true, true, true, true, true, true, true, true, true,
    false, true⟩ rfl rfl rfl rfl rfl rfl rfl rfl rfl rfl rfl rfl

end Tubely
